import Mathlib

/-!
Shallow embedding of pydock (src/pydock.py, version 0.0.6): a CLI tool
managing per-project containerized Python environments.  We model the
on-disk environment store, the container-engine state (image tags and
containers), and the operations create / build / delete / run /
install / update / uninstall together with the trace of engine command
lines they issue.  Engine nondeterminism (exit codes of subprocesses,
content ids chosen by the engine) is supplied by an explicit oracle.
-/

set_option autoImplicit false

namespace Pydock

/-! ### Python string helpers

`install` and friends extract the committed image id with
`stdout.decode("utf8").strip().split(":")[1]`.  We embed Python
`str.strip` and `str.split` at the character-list level. -/

/-- Python whitespace characters recognized by `str.strip()`. -/
def isPySpace (c : Char) : Bool :=
  c = ' ' || c = '\t' || c = '\n' || c = '\r' || c = '\x0b' || c = '\x0c'

/-- Python `str.strip()`: drop whitespace from both ends. -/
def pyStrip (l : List Char) : List Char :=
  ((l.dropWhile isPySpace).reverse.dropWhile isPySpace).reverse

/-- Python `str.split(sep)` for a one-character separator. -/
def pySplit (c : Char) : List Char → List (List Char)
  | [] => [[]]
  | x :: xs =>
    let r := pySplit c xs
    if x = c then [] :: r
    else
      match r with
      | [] => [[x]]
      | h :: t => (x :: h) :: t

/-- The id extraction performed on `docker commit` output:
`stdout.strip().split(":")[1]`; `none` models the `IndexError`
raised when there is no second field (caught by the bare `except`). -/
def extractImageId (stdout : String) : Option String :=
  ((pySplit ':' (pyStrip stdout.data)).map String.mk)[1]?

/-! ### Configuration and engine state -/

/-- The `[docker]` section of `pydock.conf` plus the dockerfile template
read from `template.dockerfile` (external inputs, loaded by `init`). -/
structure Config where
  prefixVal : String
  base : String
  sudoFlag : Bool
  user : String
  docker_template : String
  deriving DecidableEq

/-- Container-engine state: image tags (tag name to content id) and the
names of existing containers. -/
structure Engine where
  tags : List (String × String)
  containers : List String
  deriving DecidableEq

/-- Files inside one environment definition directory. -/
structure EnvFiles where
  dockerfile : Option String
  requirements : Option String
  deriving DecidableEq

/-- The on-disk store: one entry per environment directory under the
pydock path. -/
abbrev Disk := List (String × EnvFiles)

/-- Combined system state. -/
structure State where
  disk : Disk
  engine : Engine
  deriving DecidableEq

/-- Environment-directory existence check (`env_dir.exists()`). -/
def lookupEnv (d : Disk) (name : String) : Option EnvFiles :=
  match d with
  | [] => none
  | p :: t => if p.1 = name then some p.2 else lookupEnv t name

/-- `shutil.rmtree(env_dir)`: remove the directory entry. -/
def removeDir (d : Disk) (name : String) : Disk :=
  d.filter (fun p => p.1 ≠ name)

/-- Set the tag `t` to content id `id` in the tag table. -/
def setTag (tags : List (String × String)) (t id : String) :
    List (String × String) :=
  (t, id) :: tags.filter (fun p => p.1 ≠ t)

/-- Remove the tag `t` from the tag table. -/
def delTag (tags : List (String × String)) (t : String) :
    List (String × String) :=
  tags.filter (fun p => p.1 ≠ t)

/-- Tag lookup. -/
def lookupTag (tags : List (String × String)) (t : String) : Option String :=
  match tags with
  | [] => none
  | p :: r => if p.1 = t then some p.2 else lookupTag r t

/-- The `docker` helper prepends `docker` (and `sudo` when configured)
to the subcommand before dispatch; this is the full command line issued. -/
def docker (cfg : Config) (command : List String) : List String :=
  let c := "docker" :: command
  if cfg.sudoFlag then "sudo" :: c else c

/-- A trace of issued engine command lines, in order. -/
abbrev Trace := List (List String)

/-- Exit codes and engine-chosen outputs for the engine calls one
operation makes: the embedding of subprocess nondeterminism. -/
structure Oracle where
  buildExit : Nat
  buildId : String
  runExit : Nat
  freezeOut : String
  commitExit : Nat
  commitId : String
  rmiExit : Nat
  tagExit : Nat
  rmExit : Nat
  deriving DecidableEq

/-- Stdout of a successful `docker commit`: algorithm, colon, content id,
trailing newline. -/
def commitStdout (ox : Oracle) : String :=
  "sha256:" ++ ox.commitId ++ "\n"

/-! ### The mutation operations: install / update / uninstall

The three functions in the source are textually identical except for the
pip subcommand in the composed shell command and the failure message, so
they are embedded as one function over the kind of mutation.  Control
flow of the source (`try` around steps 1 to 4, bare `except`, `finally`
removing the transient container) becomes explicit branching: any step
whose `docker` call has `throw=True` and a non-zero exit jumps to the
`finally` block. -/

inductive MutKind
  | install
  | update
  | uninstall
  deriving DecidableEq

/-- The composed in-container shell command,
`<pip-subcommand> <package> && pip freeze > ~/requirements.txt`. -/
def pipCommand : MutKind → String → String
  | .install, pkg => "pip install " ++ pkg ++ " && pip freeze > ~/requirements.txt"
  | .update, pkg => "pip install -U " ++ pkg ++ " && pip freeze > ~/requirements.txt"
  | .uninstall, pkg => "pip uninstall -y " ++ pkg ++ " && pip freeze > ~/requirements.txt"

/-- Name of the transient container, `pydock-<env>-tmp`. -/
def tmpName (env : String) : String := "pydock-" ++ env ++ "-tmp"

/-- The stable image tag, `pydock-<name>:latest`. -/
def tagName (name : String) : String := "pydock-" ++ name ++ ":latest"

/-- Rewrite the requirements file of an environment in place (the bind
mount lets the in-container `pip freeze` do this). -/
def writeRequirements (d : Disk) (name content : String) : Disk :=
  d.map (fun p =>
    if p.1 = name then (p.1, { p.2 with requirements := some content }) else p)

/-- Write the rendered dockerfile of an environment. -/
def writeDockerfile (d : Disk) (name content : String) : Disk :=
  d.map (fun p =>
    if p.1 = name then (p.1, { p.2 with dockerfile := some content }) else p)

/-- Arguments of the step-1 `docker run` call of a mutation. -/
def mutationRunArgs (cfg : Config) (k : MutKind)
    (pdPath env pkg uid : String) : List String :=
  ["run", "--name", tmpName env, "-v",
   pdPath ++ "/" ++ env ++ "/requirements.txt:/home/" ++ cfg.user ++ "/requirements.txt",
   "--user", uid, "pydock-" ++ env, "bash", "-c", pipCommand k pkg]

/-- The `finally` block: forcibly remove the transient container
(`throw=False`, so a failure here is never propagated). -/
def finallyRm (cfg : Config) (env : String) (st : State) (tr : Trace) :
    State × Trace :=
  (⟨st.disk,
    ⟨st.engine.tags, st.engine.containers.filter (fun c => c ≠ tmpName env)⟩⟩,
   tr ++ [docker cfg ["rm", "--force", tmpName env]])

/-- The install / update / uninstall operation (`install(config, env,
package)` and its two clones).  Returns the final state and the trace of
engine command lines issued. -/
def mutation (cfg : Config) (k : MutKind) (ox : Oracle)
    (pdPath uid env pkg : String) (st : State) : State × Trace :=
  match lookupEnv st.disk env with
  | none => (st, [])
  | some _ =>
    -- step 1: run the transient container; it is created by name, and the
    -- requirements file is rewritten through the bind mount on success
    let e1 : Engine := ⟨st.engine.tags, tmpName env :: st.engine.containers⟩
    let disk1 := if ox.runExit = 0 then writeRequirements st.disk env ox.freezeOut
                 else st.disk
    let tr1 : Trace := [docker cfg (mutationRunArgs cfg k pdPath env pkg uid)]
    if ox.runExit ≠ 0 then
      -- docker() raised, caught by the bare except; finally runs
      finallyRm cfg env ⟨disk1, e1⟩ tr1
    else
      -- step 2: commit the container, parse the content id from stdout
      let tr2 := tr1 ++ [docker cfg ["commit", tmpName env]]
      if ox.commitExit ≠ 0 then
        finallyRm cfg env ⟨disk1, e1⟩ tr2
      else
        match extractImageId (commitStdout ox) with
        | none =>
          -- IndexError from split(":")[1], caught by the bare except
          finallyRm cfg env ⟨disk1, e1⟩ tr2
        | some newId =>
          -- step 3: delete the old image (throw=True in the source!)
          let tr3 := tr2 ++ [docker cfg ["rmi", "--force", tagName env]]
          let e3 : Engine :=
            if ox.rmiExit = 0 then ⟨delTag e1.tags (tagName env), e1.containers⟩
            else e1
          if ox.rmiExit ≠ 0 then
            finallyRm cfg env ⟨disk1, e3⟩ tr3
          else
            -- step 4: tag the new image
            let tr4 := tr3 ++ [docker cfg ["tag", newId, tagName env]]
            let e4 : Engine :=
              if ox.tagExit = 0 then ⟨setTag e3.tags (tagName env) newId, e3.containers⟩
              else e3
            finallyRm cfg env ⟨disk1, e4⟩ tr4

/-- `install(config, env, package)`. -/
def install (cfg : Config) (ox : Oracle) (pdPath uid env pkg : String)
    (st : State) : State × Trace :=
  mutation cfg .install ox pdPath uid env pkg st

/-- `update(config, env, package)`. -/
def update (cfg : Config) (ox : Oracle) (pdPath uid env pkg : String)
    (st : State) : State × Trace :=
  mutation cfg .update ox pdPath uid env pkg st

/-- `uninstall(config, env, package)`. -/
def uninstall (cfg : Config) (ox : Oracle) (pdPath uid env pkg : String)
    (st : State) : State × Trace :=
  mutation cfg .uninstall ox pdPath uid env pkg st

/-! ### Lifecycle operations: build / delete / create / run -/

/-- Arguments of the `docker build` call. -/
def buildArgs (pdPath name : String) : List String :=
  ["build", "-t", tagName name, "-f",
   pdPath ++ "/" ++ name ++ "/dockerfile", pdPath ++ "/" ++ name]

/-- `build(config, name)`: returns `none` when the environment directory
does not exist (the Python function falls through and returns `None`),
`some true` on success and `some false` when the engine call raised. -/
def build (cfg : Config) (ox : Oracle) (pdPath name : String) (st : State) :
    (State × Trace) × Option Bool :=
  match lookupEnv st.disk name with
  | none => ((st, []), none)
  | some _ =>
    let tr : Trace := [docker cfg (buildArgs pdPath name)]
    if ox.buildExit = 0 then
      ((⟨st.disk, ⟨setTag st.engine.tags (tagName name) ox.buildId,
                   st.engine.containers⟩⟩, tr), some true)
    else
      ((⟨st.disk, st.engine⟩, tr), some false)

/-- `delete(config, name)`: on an absent directory, report and return;
otherwise remove the directory tree, then best-effort remove the image
(`throw=False`). -/
def delete (cfg : Config) (ox : Oracle) (name : String) (st : State) :
    State × Trace :=
  match lookupEnv st.disk name with
  | none => (st, [])
  | some _ =>
    let disk1 := removeDir st.disk name
    let e1 : Engine :=
      if ox.rmiExit = 0 then ⟨delTag st.engine.tags (tagName name), st.engine.containers⟩
      else st.engine
    (⟨disk1, e1⟩, [docker cfg ["rmi", "--force", tagName name]])

/-- `env_dir.mkdir()` wrapped in `try/except FileExistsError`: the
existence test and directory creation are one atomic step. -/
def mkdirAttempt (d : Disk) (name : String) : Except Unit Disk :=
  match lookupEnv d name with
  | some _ => .error ()
  | none => .ok ((name, ⟨none, none⟩) :: d)

/-- Python `str.format` on the dockerfile template with keyword arguments
`prefix`, `base`, `version`, `user`. -/
def formatTemplate (tmpl p b v u : String) : String :=
  (((tmpl.replace "\x7bprefix\x7d" p).replace "\x7bbase\x7d" b).replace
      "\x7bversion\x7d" v).replace "\x7buser\x7d" u

/-- The dockerfile content written by `create`. -/
def renderedDockerfile (cfg : Config) (version : String) : String :=
  (formatTemplate cfg.docker_template cfg.prefixVal cfg.base version cfg.user).trim

/-- `create(config, name, version)`: attempt the directory creation, on
`FileExistsError` report and return; otherwise write the rendered
dockerfile and an empty requirements file, then `build`; when `build`
does not return `True`, roll back with `delete`. -/
def create (cfg : Config) (ox : Oracle) (pdPath name version : String)
    (st : State) : State × Trace :=
  match mkdirAttempt st.disk name with
  | .error _ => (st, [])
  | .ok disk0 =>
    let disk1 := writeRequirements
      (writeDockerfile disk0 name (renderedDockerfile cfg version)) name ""
    match build cfg ox pdPath name ⟨disk1, st.engine⟩ with
    | ((st2, tr), some true) => (st2, tr)
    | ((st2, tr), _) =>
      let (st3, tr2) := delete cfg ox name st2
      (st3, tr ++ tr2)

/-- The engine command line issued by `run(config, name, *command)`: the
`terminal` variable is `"-it"` when stdin is a terminal and the empty
string otherwise, and is passed as an argument either way; an empty
command defaults to `["bash"]`. -/
def runArgs (cfg : Config) (isatty : Bool) (cwdPath cwdStem uid name : String)
    (command : List String) : List String :=
  let command := if command = [] then ["bash"] else command
  let terminal := if isatty then "-it" else ""
  ["run", "--rm", terminal, "--user", uid, "--hostname", name, "-v",
   cwdPath ++ ":/home/" ++ cfg.user ++ "/" ++ cwdStem, "-w",
   "/home/" ++ cfg.user ++ "/" ++ cwdStem, tagName name] ++ command

/-- `run(config, name, *command)`: absent environment reports and issues
nothing; otherwise one engine call is made (`--rm`, `throw=False`: no
lasting state change and no propagated failure). -/
def runOp (cfg : Config) (isatty : Bool) (cwdPath cwdStem uid name : String)
    (command : List String) (st : State) : Trace :=
  match lookupEnv st.disk name with
  | none => []
  | some _ => [docker cfg (runArgs cfg isatty cwdPath cwdStem uid name command)]

/-! ### Command dispatch in `main` -/

/-- The keys of the `COMMANDS` registry: every function decorated with
`@command`, in definition order. -/
def commandNames : List String :=
  ["envs", "config", "create", "build", "delete", "run",
   "install", "update", "uninstall"]

/-- The module-level flag consumption: `--local` or `--global` is popped
from the front of `sys.argv[1:]` before dispatch. -/
def consumeFlag (args : List String) : List String :=
  match args with
  | "--local" :: rest => rest
  | "--global" :: rest => rest
  | _ => args

/-- Outcome of `main` after config loading. -/
inductive MainResult
  | usage
  | dispatched (cmd : String) (rest : List String)
  | keyError (cmd : String)
  deriving DecidableEq

/-- `main()`: with no remaining arguments print usage; otherwise look the
first argument up in `COMMANDS` — an unknown name raises an uncaught
`KeyError` (`COMMANDS[args.pop(0)]` with no surrounding handler). -/
def mainDispatch (args0 : List String) : MainResult :=
  let args := consumeFlag args0
  match args with
  | [] => .usage
  | c :: rest =>
    if commandNames.contains c then .dispatched c rest else .keyError c

/-! ### Concrete fixtures used to instantiate the theorems -/

/-- A concrete configuration: empty registry prefix, `python` base image,
no sudo, container user `alice`. -/
def demoCfg : Config := ⟨"", "python", false, "alice", "FROM python"⟩

/-- A built environment definition directory. -/
def demoFiles : EnvFiles := ⟨some "FROM python", some ""⟩

/-- A state holding one environment `demo` whose stable tag points at
content id `aaa111`. -/
def demoState : State :=
  ⟨[("demo", demoFiles)], ⟨[("pydock-demo:latest", "aaa111")], []⟩⟩

/-- Engine behavior where every call exits 0 and the commit produces
content id `abc123`. -/
def okOracle : Oracle := ⟨0, "bid0", 0, "requests==2.0\n", 0, "abc123", 0, 0, 0⟩

/-- Engine behavior where the in-container command exits 1. -/
def runFailOracle : Oracle := ⟨0, "bid0", 1, "", 0, "abc123", 0, 0, 0⟩

/-- Engine behavior where only the removal of the previous image tag
(step 3) exits 1. -/
def rmiFailOracle : Oracle :=
  ⟨0, "bid0", 0, "requests==2.0\n", 0, "abc123", 1, 0, 0⟩

/-- Engine behavior where the image build exits 1. -/
def buildFailOracle : Oracle := ⟨1, "bid0", 0, "", 0, "", 0, 0, 0⟩

/-! ### Helper lemmas -/

theorem dropWhile_no {p : Char → Bool} {l : List Char}
    (h : ∀ a ∈ l, p a = false) : l.dropWhile p = l := by
  cases l with
  | nil => rfl
  | cons a t =>
    rw [List.dropWhile_cons, h a (by simp)]
    simp

theorem pySplit_no_sep {c : Char} {l : List Char} (h : c ∉ l) :
    pySplit c l = [l] := by
  induction l with
  | nil => rfl
  | cons a t ih =>
    have ha : ¬ a = c := by
      intro e
      exact h (by simp [e])
    have ht : c ∉ t := fun m => h (by simp [m])
    simp [pySplit, ha, ih ht]

theorem pySplit_cons_ne {c a : Char} {l : List Char} (h : ¬ a = c)
    {hd : List Char} {tl : List (List Char)}
    (hr : pySplit c l = hd :: tl) :
    pySplit c (a :: l) = (a :: hd) :: tl := by
  simp [pySplit, h, hr]

theorem pyStrip_commit {id : String} (hw : ∀ ch ∈ id.data, isPySpace ch = false) :
    pyStrip ("sha256:" ++ id ++ "\n").data =
      's' :: 'h' :: 'a' :: '2' :: '5' :: '6' :: ':' :: id.data := by
  have hdata : ("sha256:" ++ id ++ "\n").data =
      's' :: 'h' :: 'a' :: '2' :: '5' :: '6' :: ':' :: (id.data ++ ['\n']) := by
    simp [String.data_append]
  rw [hdata]
  unfold pyStrip
  have h1 : List.dropWhile isPySpace
      ('s' :: 'h' :: 'a' :: '2' :: '5' :: '6' :: ':' :: (id.data ++ ['\n'])) =
      's' :: 'h' :: 'a' :: '2' :: '5' :: '6' :: ':' :: (id.data ++ ['\n']) := by
    rw [List.dropWhile_cons]
    simp [isPySpace]
  rw [h1]
  have h2 : ('s' :: 'h' :: 'a' :: '2' :: '5' :: '6' :: ':' ::
      (id.data ++ ['\n'])).reverse =
      '\n' :: (id.data.reverse ++ [':', '6', '5', '2', 'a', 'h', 's']) := by
    simp
  rw [h2, List.dropWhile_cons]
  have h3 : isPySpace '\x0a' = true := by rfl
  simp only [h3, if_true]
  have h4 : List.dropWhile isPySpace
      (id.data.reverse ++ [':', '6', '5', '2', 'a', 'h', 's']) =
      id.data.reverse ++ [':', '6', '5', '2', 'a', 'h', 's'] := by
    apply dropWhile_no
    intro a ha
    rcases List.mem_append.mp ha with h | h
    · exact hw a (List.mem_reverse.mp h)
    · fin_cases h <;> rfl
  rw [h4]
  simp

theorem mk_data (s : String) : String.mk s.data = s := rfl

/-- Extraction of the content id from well-formed commit output: for an id
with no colon and no whitespace, `strip().split(":")[1]` returns the id,
the substring after the colon. -/
theorem extractImageId_commit {id : String} (hc : ':' ∉ id.data)
    (hw : ∀ ch ∈ id.data, isPySpace ch = false) :
    extractImageId ("sha256:" ++ id ++ "\n") = some id := by
  unfold extractImageId
  rw [pyStrip_commit hw]
  have h0 : pySplit ':' (':' :: id.data) = [] :: [id.data] := by
    simp [pySplit, pySplit_no_sep hc]
  have h6 : pySplit ':' ('6' :: ':' :: id.data) = ['6'] :: [id.data] :=
    pySplit_cons_ne (by decide) h0
  have h5 : pySplit ':' ('5' :: '6' :: ':' :: id.data) =
      ['5', '6'] :: [id.data] := pySplit_cons_ne (by decide) h6
  have h2 : pySplit ':' ('2' :: '5' :: '6' :: ':' :: id.data) =
      ['2', '5', '6'] :: [id.data] := pySplit_cons_ne (by decide) h5
  have ha : pySplit ':' ('a' :: '2' :: '5' :: '6' :: ':' :: id.data) =
      ['a', '2', '5', '6'] :: [id.data] := pySplit_cons_ne (by decide) h2
  have hh : pySplit ':' ('h' :: 'a' :: '2' :: '5' :: '6' :: ':' :: id.data) =
      ['h', 'a', '2', '5', '6'] :: [id.data] := pySplit_cons_ne (by decide) ha
  have hs : pySplit ':' ('s' :: 'h' :: 'a' :: '2' :: '5' :: '6' :: ':' :: id.data) =
      ['s', 'h', 'a', '2', '5', '6'] :: [id.data] := pySplit_cons_ne (by decide) hh
  rw [hs]
  simp [mk_data]

theorem lookupTag_setTag (tags : List (String × String)) (t id : String) :
    lookupTag (setTag tags t id) t = some id := by
  simp [setTag, lookupTag]

/-- A mutation whose in-container command exits non-zero issues only the
run call and the cleanup call, and changes nothing but the container set. -/
theorem mutation_run_failed (cfg : Config) (k : MutKind) (ox : Oracle)
    (pdPath uid env pkg : String) (st : State) (fs : EnvFiles)
    (henv : lookupEnv st.disk env = some fs) (hr : ox.runExit ≠ 0) :
    mutation cfg k ox pdPath uid env pkg st =
      (⟨st.disk,
        ⟨st.engine.tags,
         st.engine.containers.filter (fun c => c ≠ tmpName env)⟩⟩,
       [docker cfg (mutationRunArgs cfg k pdPath env pkg uid),
        docker cfg ["rm", "--force", tmpName env]]) := by
  simp [mutation, henv, hr, finallyRm]

/-- A mutation in which all four protocol steps succeed: the requirements
file is rewritten, the stable tag now points at the committed id, the
transient container is gone, and exactly five engine calls were made, in
protocol order. -/
theorem mutation_success (cfg : Config) (k : MutKind) (ox : Oracle)
    (pdPath uid env pkg : String) (st : State) (fs : EnvFiles)
    (henv : lookupEnv st.disk env = some fs)
    (hr : ox.runExit = 0) (hcm : ox.commitExit = 0)
    (hrmi : ox.rmiExit = 0) (htag : ox.tagExit = 0)
    (hext : extractImageId (commitStdout ox) = some ox.commitId) :
    mutation cfg k ox pdPath uid env pkg st =
      (⟨writeRequirements st.disk env ox.freezeOut,
        ⟨setTag (delTag st.engine.tags (tagName env)) (tagName env) ox.commitId,
         st.engine.containers.filter (fun c => c ≠ tmpName env)⟩⟩,
       [docker cfg (mutationRunArgs cfg k pdPath env pkg uid),
        docker cfg ["commit", tmpName env],
        docker cfg ["rmi", "--force", tagName env],
        docker cfg ["tag", ox.commitId, tagName env],
        docker cfg ["rm", "--force", tmpName env]]) := by
  simp [mutation, henv, hr, hcm, hrmi, htag, hext, finallyRm]

/-- A mutation in which the run and commit steps succeed but the removal
of the previous image tag exits non-zero: the raised exception skips the
retag step, so only four engine calls are made and the tag table is left
unchanged; cleanup still runs. -/
theorem mutation_rmi_failed (cfg : Config) (k : MutKind) (ox : Oracle)
    (pdPath uid env pkg : String) (st : State) (fs : EnvFiles)
    (henv : lookupEnv st.disk env = some fs)
    (hr : ox.runExit = 0) (hcm : ox.commitExit = 0) (hrmi : ox.rmiExit ≠ 0)
    (hext : extractImageId (commitStdout ox) = some ox.commitId) :
    mutation cfg k ox pdPath uid env pkg st =
      (⟨writeRequirements st.disk env ox.freezeOut,
        ⟨st.engine.tags,
         st.engine.containers.filter (fun c => c ≠ tmpName env)⟩⟩,
       [docker cfg (mutationRunArgs cfg k pdPath env pkg uid),
        docker cfg ["commit", tmpName env],
        docker cfg ["rmi", "--force", tagName env],
        docker cfg ["rm", "--force", tmpName env]]) := by
  simp [mutation, henv, hr, hcm, hrmi, hext, finallyRm]

/-- On every path through a mutation that passed the existence check, the
transient container is removed by the unconditional cleanup step, and the
last engine call is the force-remove of that container. -/
theorem mutation_cleanup (cfg : Config) (k : MutKind) (ox : Oracle)
    (pdPath uid env pkg : String) (st : State) (fs : EnvFiles)
    (henv : lookupEnv st.disk env = some fs) :
    (mutation cfg k ox pdPath uid env pkg st).1.engine.containers =
      st.engine.containers.filter (fun c => c ≠ tmpName env) ∧
    (mutation cfg k ox pdPath uid env pkg st).2.getLast? =
      some (docker cfg ["rm", "--force", tmpName env]) := by
  unfold mutation
  rw [henv]
  by_cases hr : ox.runExit = 0 <;>
    by_cases hcm : ox.commitExit = 0 <;>
    rcases hext : extractImageId (commitStdout ox) with _ | newId <;>
    by_cases hrmi : ox.rmiExit = 0 <;>
    by_cases htag : ox.tagExit = 0 <;>
    simp [hr, hcm, hext, hrmi, htag, finallyRm]

theorem lookupEnv_none_keys {d : Disk} {name : String}
    (h : lookupEnv d name = none) : ∀ p ∈ d, p.1 ≠ name := by
  induction d with
  | nil => simp
  | cons q t ih =>
    by_cases hq : q.1 = name
    · simp [lookupEnv, hq] at h
    · rw [lookupEnv, if_neg hq] at h
      intro p hp
      rcases List.mem_cons.mp hp with e | m
      · rw [e]; exact hq
      · exact ih h p m

theorem writeDockerfile_absent {d : Disk} {name : String} (c : String)
    (h : ∀ p ∈ d, p.1 ≠ name) : writeDockerfile d name c = d := by
  unfold writeDockerfile
  induction d with
  | nil => rfl
  | cons q t ih =>
    rw [List.map_cons, if_neg (h q (by simp)), ih (fun p hp => h p (by simp [hp]))]

theorem writeRequirements_absent {d : Disk} {name : String} (c : String)
    (h : ∀ p ∈ d, p.1 ≠ name) : writeRequirements d name c = d := by
  unfold writeRequirements
  induction d with
  | nil => rfl
  | cons q t ih =>
    rw [List.map_cons, if_neg (h q (by simp)), ih (fun p hp => h p (by simp [hp]))]

theorem removeDir_absent {d : Disk} {name : String}
    (h : ∀ p ∈ d, p.1 ≠ name) : removeDir d name = d := by
  unfold removeDir
  induction d with
  | nil => rfl
  | cons q t ih =>
    rw [List.filter_cons]
    simp only [decide_eq_true_eq]
    rw [if_pos (h q (by simp)), ih (fun p hp => h p (by simp [hp]))]

theorem ne_of_mem_not_mem {s t : String} {c : Char}
    (h1 : c ∈ s.data) (h2 : c ∉ t.data) : s ≠ t :=
  fun e => h2 (e ▸ h1)

theorem writeDockerfile_head (fs : EnvFiles) (d : Disk) (name c : String)
    (h : ∀ p ∈ d, p.1 ≠ name) :
    writeDockerfile ((name, fs) :: d) name c =
      (name, ⟨some c, fs.requirements⟩) :: d := by
  have ht : writeDockerfile d name c = d := writeDockerfile_absent c h
  unfold writeDockerfile at ht ⊢
  rw [List.map_cons, if_pos rfl, ht]

theorem writeRequirements_head (fs : EnvFiles) (d : Disk) (name c : String)
    (h : ∀ p ∈ d, p.1 ≠ name) :
    writeRequirements ((name, fs) :: d) name c =
      (name, ⟨fs.dockerfile, some c⟩) :: d := by
  have ht : writeRequirements d name c = d := writeRequirements_absent c h
  unfold writeRequirements at ht ⊢
  rw [List.map_cons, if_pos rfl, ht]

theorem removeDir_head (fs : EnvFiles) (d : Disk) (name : String)
    (h : ∀ p ∈ d, p.1 ≠ name) :
    removeDir ((name, fs) :: d) name = d := by
  have ht : removeDir d name = d := removeDir_absent h
  unfold removeDir at ht ⊢
  rw [List.filter_cons]
  simp only [decide_eq_true_eq]
  rw [if_neg (by simp), ht]

/-! ### Claim theorems -/

/-- Claim C1: for every environment and package, a mutation (install,
update or uninstall) whose in-container command exits non-zero leaves the
stable tag `pydock-<env>:latest` unchanged (same content id as before),
while a mutation in which all four protocol steps succeed leaves the tag
pointing at the freshly committed content id, which differs from the id
the tag held before the transaction. -/
theorem C1_mutation_tag_atomicity (cfg : Config) (k : MutKind) (ox : Oracle)
    (pdPath uid env pkg : String) (st : State) (fs : EnvFiles)
    (henv : lookupEnv st.disk env = some fs) :
    (ox.runExit ≠ 0 →
      (mutation cfg k ox pdPath uid env pkg st).1.engine.tags =
        st.engine.tags) ∧
    (ox.runExit = 0 → ox.commitExit = 0 → ox.rmiExit = 0 → ox.tagExit = 0 →
      ':' ∉ ox.commitId.data →
      (∀ ch ∈ ox.commitId.data, isPySpace ch = false) →
      lookupTag st.engine.tags (tagName env) ≠ some ox.commitId →
      lookupTag (mutation cfg k ox pdPath uid env pkg st).1.engine.tags
          (tagName env) = some ox.commitId ∧
      lookupTag (mutation cfg k ox pdPath uid env pkg st).1.engine.tags
          (tagName env) ≠ lookupTag st.engine.tags (tagName env)) := by
  constructor
  · intro hr
    rw [mutation_run_failed cfg k ox pdPath uid env pkg st fs henv hr]
  · intro hr hcm hrmi htag hc hw hfresh
    rw [mutation_success cfg k ox pdPath uid env pkg st fs henv hr hcm hrmi htag
      (extractImageId_commit hc hw)]
    refine ⟨lookupTag_setTag _ _ _, ?_⟩
    rw [lookupTag_setTag]
    exact Ne.symm hfresh

/-- Witness for C1 at a concrete state: a successful install moves the
`demo` tag from `aaa111` to the committed id `abc123`. -/
theorem C1_mutation_tag_atomicity_witness :
    lookupTag (mutation demoCfg .install okOracle "/p" "1000" "demo" "requests"
        demoState).1.engine.tags (tagName "demo") = some "abc123" :=
  ((C1_mutation_tag_atomicity demoCfg .install okOracle "/p" "1000" "demo"
      "requests" demoState demoFiles (by decide)).2 rfl rfl rfl rfl
      (by decide) (by decide) (by decide)).1

/-- Claim C2 as stated is false: in the source the `rmi` engine call of a
mutation does not pass `throw=False`, so a non-zero exit raises and the
retag (step 4) is skipped.  At this concrete input step 3 exits 1, yet no
`tag` command is issued and the stable tag still holds the old id. -/
theorem C2_counterexample :
    docker demoCfg ["tag", "abc123", tagName "demo"] ∉
      (mutation demoCfg .install rmiFailOracle "/p" "1000" "demo" "requests"
        demoState).2 ∧
    lookupTag (mutation demoCfg .install rmiFailOracle "/p" "1000" "demo"
        "requests" demoState).1.engine.tags (tagName "demo") =
      some "aaa111" := by
  decide

/-- Claim C2, amended: a failure of step 3 (removing the previous image
tag) aborts the transaction — the raised exception is caught, the retag
of step 4 is skipped (only run, commit, rmi and the cleanup removal are
issued), and the stable tag is left unchanged. -/
theorem C2_rmi_failure_aborts (cfg : Config) (k : MutKind) (ox : Oracle)
    (pdPath uid env pkg : String) (st : State) (fs : EnvFiles)
    (henv : lookupEnv st.disk env = some fs)
    (hr : ox.runExit = 0) (hcm : ox.commitExit = 0) (hrmi : ox.rmiExit ≠ 0)
    (hc : ':' ∉ ox.commitId.data)
    (hw : ∀ ch ∈ ox.commitId.data, isPySpace ch = false) :
    (mutation cfg k ox pdPath uid env pkg st).1.engine.tags =
      st.engine.tags ∧
    (mutation cfg k ox pdPath uid env pkg st).2 =
      [docker cfg (mutationRunArgs cfg k pdPath env pkg uid),
       docker cfg ["commit", tmpName env],
       docker cfg ["rmi", "--force", tagName env],
       docker cfg ["rm", "--force", tmpName env]] := by
  rw [mutation_rmi_failed cfg k ox pdPath uid env pkg st fs henv hr hcm hrmi
    (extractImageId_commit hc hw)]
  exact ⟨rfl, rfl⟩

/-- Witness for the amended C2: at the concrete rmi-failure input the tag
table is untouched. -/
theorem C2_rmi_failure_aborts_witness :
    (mutation demoCfg .install rmiFailOracle "/p" "1000" "demo" "requests"
        demoState).1.engine.tags = demoState.engine.tags :=
  (C2_rmi_failure_aborts demoCfg .install rmiFailOracle "/p" "1000" "demo"
      "requests" demoState demoFiles (by decide) rfl rfl (by decide)
      (by decide) (by decide)).1

/-- Claim C4: for every mutation that passes the environment-existence
check, on every exit path the force-remove of the transient container
`pydock-<env>-tmp` is the last engine call issued, and no container of
that name remains afterwards.  (The cleanup call is made with
`throw=False`, which the embedding reflects by having no failure path:
`mutation` is total in the oracle, so no removal failure propagates.) -/
theorem C4_cleanup_unconditional (cfg : Config) (k : MutKind) (ox : Oracle)
    (pdPath uid env pkg : String) (st : State) (fs : EnvFiles)
    (henv : lookupEnv st.disk env = some fs) :
    tmpName env ∉ (mutation cfg k ox pdPath uid env pkg st).1.engine.containers ∧
    (mutation cfg k ox pdPath uid env pkg st).2.getLast? =
      some (docker cfg ["rm", "--force", tmpName env]) := by
  obtain ⟨h1, h2⟩ := mutation_cleanup cfg k ox pdPath uid env pkg st fs henv
  refine ⟨?_, h2⟩
  rw [h1]
  simp

/-- Witness for C4: even with every engine call failing (exit 7), the
transient container is gone after the transaction. -/
theorem C4_cleanup_unconditional_witness :
    tmpName "demo" ∉ (mutation demoCfg .uninstall ⟨7, "", 7, "", 7, "", 7, 7, 7⟩
      "/p" "1000" "demo" "requests" demoState).1.engine.containers :=
  (C4_cleanup_unconditional demoCfg .uninstall ⟨7, "", 7, "", 7, "", 7, 7, 7⟩
      "/p" "1000" "demo" "requests" demoState demoFiles (by decide)).1

/-- Claim C5: a mutation executes its steps in protocol order — (1) a
named transient container is run from the current image with the manifest
bind-mounted into the container home, executing the composed command
`<pip-subcommand> <package> && pip freeze > ~/requirements.txt`; (2) the
container is committed and the content id is extracted as the substring
after the colon of the commit stdout; (3) the old tag is removed; (4) the
new id is retagged; and a non-zero exit in step 1 skips steps 2 to 4. -/
theorem C5_protocol_order (cfg : Config) (k : MutKind) (ox : Oracle)
    (pdPath uid env pkg : String) (st : State) (fs : EnvFiles)
    (henv : lookupEnv st.disk env = some fs)
    (hc : ':' ∉ ox.commitId.data)
    (hw : ∀ ch ∈ ox.commitId.data, isPySpace ch = false) :
    extractImageId (commitStdout ox) = some ox.commitId ∧
    (ox.runExit = 0 → ox.commitExit = 0 → ox.rmiExit = 0 → ox.tagExit = 0 →
      (mutation cfg k ox pdPath uid env pkg st).2 =
        [docker cfg ["run", "--name", tmpName env, "-v",
           pdPath ++ "/" ++ env ++ "/requirements.txt:/home/" ++ cfg.user ++
             "/requirements.txt",
           "--user", uid, "pydock-" ++ env, "bash", "-c", pipCommand k pkg],
         docker cfg ["commit", tmpName env],
         docker cfg ["rmi", "--force", tagName env],
         docker cfg ["tag", ox.commitId, tagName env],
         docker cfg ["rm", "--force", tmpName env]]) ∧
    (ox.runExit ≠ 0 →
      (mutation cfg k ox pdPath uid env pkg st).2 =
        [docker cfg ["run", "--name", tmpName env, "-v",
           pdPath ++ "/" ++ env ++ "/requirements.txt:/home/" ++ cfg.user ++
             "/requirements.txt",
           "--user", uid, "pydock-" ++ env, "bash", "-c", pipCommand k pkg],
         docker cfg ["rm", "--force", tmpName env]]) := by
  refine ⟨extractImageId_commit hc hw, ?_, ?_⟩
  · intro hr hcm hrmi htag
    rw [mutation_success cfg k ox pdPath uid env pkg st fs henv hr hcm hrmi htag
      (extractImageId_commit hc hw)]
    rfl
  · intro hr
    rw [mutation_run_failed cfg k ox pdPath uid env pkg st fs henv hr]
    rfl

/-- Witness for C5: the step-1-failure trace at a concrete input is the
run call followed only by the cleanup call. -/
theorem C5_protocol_order_witness :
    (mutation demoCfg .install runFailOracle "/p" "1000" "demo" "requests"
        demoState).2 =
      [docker demoCfg ["run", "--name", tmpName "demo", "-v",
         "/p/demo/requirements.txt:/home/alice/requirements.txt",
         "--user", "1000", "pydock-demo", "bash", "-c",
         "pip install requests && pip freeze > ~/requirements.txt"],
       docker demoCfg ["rm", "--force", tmpName "demo"]] :=
  (C5_protocol_order demoCfg .install runFailOracle "/p" "1000" "demo"
      "requests" demoState demoFiles (by decide) (by decide) (by decide)).2.2
    (by decide)

/-- Claim C3: for a valid name not already present, `create` writes the
definition and builds; if the build fails the just-created definition
directory is deleted again, so after `create` returns the environment is
either Built (definition present and stable tag set) or Absent (the disk
is exactly as before) — never Defined-but-unbuilt. -/
theorem C3_create_all_or_nothing (cfg : Config) (ox : Oracle)
    (pdPath name version : String) (st : State)
    (hnew : lookupEnv st.disk name = none) :
    (ox.buildExit ≠ 0 →
      (create cfg ox pdPath name version st).1.disk = st.disk ∧
      lookupEnv (create cfg ox pdPath name version st).1.disk name = none) ∧
    (ox.buildExit = 0 →
      lookupEnv (create cfg ox pdPath name version st).1.disk name =
        some ⟨some (renderedDockerfile cfg version), some ""⟩ ∧
      lookupTag (create cfg ox pdPath name version st).1.engine.tags
        (tagName name) = some ox.buildId) := by
  have hkeys := lookupEnv_none_keys hnew
  have hdisk1 : writeRequirements
      (writeDockerfile ((name, (⟨none, none⟩ : EnvFiles)) :: st.disk) name
        (renderedDockerfile cfg version)) name "" =
      (name, ⟨some (renderedDockerfile cfg version), some ""⟩) :: st.disk := by
    rw [writeDockerfile_head _ _ _ _ hkeys, writeRequirements_head _ _ _ _ hkeys]
  have hb : lookupEnv
      ((name, (⟨some (renderedDockerfile cfg version), some ""⟩ : EnvFiles)) ::
        st.disk) name =
      some ⟨some (renderedDockerfile cfg version), some ""⟩ := by
    simp [lookupEnv]
  constructor
  · intro hbuild
    have hcr : (create cfg ox pdPath name version st).1.disk = st.disk := by
      simp [create, mkdirAttempt, hnew, hdisk1, build, hb, hbuild, delete,
        removeDir_head _ _ _ hkeys]
    exact ⟨hcr, hcr ▸ hnew⟩
  · intro hbuild
    have hcr : create cfg ox pdPath name version st =
        (⟨(name, ⟨some (renderedDockerfile cfg version), some ""⟩) :: st.disk,
          ⟨setTag st.engine.tags (tagName name) ox.buildId,
           st.engine.containers⟩⟩,
         [docker cfg (buildArgs pdPath name)]) := by
      simp [create, mkdirAttempt, hnew, hdisk1, build, hb, hbuild]
    rw [hcr]
    exact ⟨by simp [lookupEnv], lookupTag_setTag _ _ _⟩

/-- Witness for C3: creating `neo` while the image build fails leaves the
disk exactly as before. -/
theorem C3_create_all_or_nothing_witness :
    (create demoCfg buildFailOracle "/p" "neo" "3.11" demoState).1.disk =
      demoState.disk :=
  ((C3_create_all_or_nothing demoCfg buildFailOracle "/p" "neo" "3.11"
      demoState (by decide)).1 (by decide)).1

/-- Claim C6: `delete` on a name whose environment directory is absent
reports a failure and returns with the state (disk and engine) unchanged
and no engine invocation issued. -/
theorem C6_delete_absent_noop (cfg : Config) (ox : Oracle) (name : String)
    (st : State) (h : lookupEnv st.disk name = none) :
    delete cfg ox name st = (st, []) := by
  simp [delete, h]

/-- Witness for C6 at a concrete absent name. -/
theorem C6_delete_absent_noop_witness :
    delete demoCfg okOracle "ghost" demoState = (demoState, []) :=
  C6_delete_absent_noop demoCfg okOracle "ghost" demoState (by decide)

/-- Claim C7: `create` on a name whose directory already exists fails
with an already-exists report; the failure comes from the directory
creation attempt itself (`mkdir` raising `FileExistsError`, embedded as
the atomic `mkdirAttempt` step), and neither a build recipe nor a
manifest is written: the state is returned unchanged with no engine
call. -/
theorem C7_create_already_exists (cfg : Config) (ox : Oracle)
    (pdPath name version : String) (st : State) (fs : EnvFiles)
    (h : lookupEnv st.disk name = some fs) :
    create cfg ox pdPath name version st = (st, []) := by
  simp [create, mkdirAttempt, h]

/-- Witness for C7: creating `demo` again changes nothing. -/
theorem C7_create_already_exists_witness :
    create demoCfg okOracle "/p" "demo" "3.11" demoState = (demoState, []) :=
  C7_create_already_exists demoCfg okOracle "/p" "demo" "3.11" demoState
    demoFiles (by decide)

/-- Claim C8: running `build` twice in succession on an existing
environment yields the same on-disk state as running it once — `build`
writes nothing to the definition directory, and both runs issue the same
engine command targeting the same tag `pydock-<name>:latest` — even
though the content id assigned by the engine may differ between runs. -/
theorem C8_build_idempotent (cfg : Config) (ox1 ox2 : Oracle)
    (pdPath name : String) (st : State) (fs : EnvFiles)
    (h : lookupEnv st.disk name = some fs) :
    (build cfg ox2 pdPath name (build cfg ox1 pdPath name st).1.1).1.1.disk =
      st.disk ∧
    (build cfg ox1 pdPath name st).1.1.disk = st.disk ∧
    (build cfg ox2 pdPath name (build cfg ox1 pdPath name st).1.1).1.2 =
      (build cfg ox1 pdPath name st).1.2 ∧
    (build cfg ox1 pdPath name st).1.2 =
      [docker cfg (buildArgs pdPath name)] := by
  by_cases h1 : ox1.buildExit = 0 <;> by_cases h2 : ox2.buildExit = 0 <;>
    simp [build, h, h1, h2]

/-- Witness for C8: two successive builds of `demo` with different engine
outcomes leave the disk as it was. -/
theorem C8_build_idempotent_witness :
    (build demoCfg buildFailOracle "/p" "demo"
        (build demoCfg okOracle "/p" "demo" demoState).1.1).1.1.disk =
      demoState.disk :=
  (C8_build_idempotent demoCfg okOracle buildFailOracle "/p" "demo" demoState
      demoFiles (by decide)).1

/-- Claim C9: for an existing environment, `run` with no command
arguments launches the container with the command defaulted to `bash`,
and when standard input is not a terminal the interactivity flag `-it`
does not appear anywhere in the issued engine invocation (the `terminal`
variable is the empty string instead). -/
theorem C9_run_defaults (cfg : Config) (isatty : Bool)
    (cwdPath cwdStem uid name : String) (command : List String) (st : State)
    (fs : EnvFiles) (h : lookupEnv st.disk name = some fs)
    (huid : uid ≠ "-it") (hname : name ≠ "-it") (hcmd : "-it" ∉ command) :
    runOp cfg isatty cwdPath cwdStem uid name [] st =
      [docker cfg ["run", "--rm", if isatty then "-it" else "", "--user", uid,
        "--hostname", name, "-v",
        cwdPath ++ ":/home/" ++ cfg.user ++ "/" ++ cwdStem, "-w",
        "/home/" ++ cfg.user ++ "/" ++ cwdStem, tagName name, "bash"]] ∧
    (isatty = false →
      "-it" ∉ docker cfg (runArgs cfg isatty cwdPath cwdStem uid name command)) := by
  constructor
  · simp [runOp, h, runArgs]
  · intro hty
    subst hty
    have hmt : ("-it" : String) ≠
        cwdPath ++ ":/home/" ++ cfg.user ++ "/" ++ cwdStem := by
      refine Ne.symm (ne_of_mem_not_mem (c := ':') ?_ (by decide))
      simp only [String.data_append]
      exact List.mem_append_left _ (List.mem_append_left _
        (List.mem_append_left _ (List.mem_append_right _ (by decide))))
    have hwd : ("-it" : String) ≠ "/home/" ++ cfg.user ++ "/" ++ cwdStem := by
      refine Ne.symm (ne_of_mem_not_mem (c := '/') ?_ (by decide))
      simp only [String.data_append]
      exact List.mem_append_left _ (List.mem_append_left _
        (List.mem_append_left _ (by decide)))
    have htg : ("-it" : String) ≠ tagName name := by
      refine Ne.symm (ne_of_mem_not_mem (c := 'y') ?_ (by decide))
      simp only [tagName, String.data_append]
      exact List.mem_append_left _ (List.mem_append_left _ (by decide))
    have hcd : ("-it" : String) ∉ (if command = [] then ["bash"] else command) := by
      by_cases hc0 : command = [] <;> simp [hc0, hcmd]
    by_cases hs : cfg.sudoFlag <;>
      simp [docker, runArgs, hs, hmt, hwd, htg, hcd, Ne.symm huid, Ne.symm hname]

/-- Witness for C9: with stdin not a terminal, the issued invocation for
`demo` contains no `-it` flag. -/
theorem C9_run_defaults_witness :
    "-it" ∉ docker demoCfg (runArgs demoCfg false "/work" "proj" "1000"
      "demo" []) :=
  (C9_run_defaults demoCfg false "/work" "proj" "1000" "demo" [] demoState
      demoFiles (by decide) (by decide) (by decide) (by decide)).2 rfl

/-- Claim C10: an invocation whose first remaining argument, after
consuming an optional `--local` or `--global` flag, is not a registered
subcommand name makes `main` raise an uncaught `KeyError` from the
`COMMANDS` registry lookup instead of printing a usage or error
message. -/
theorem C10_unknown_command_keyerror (args : List String) (c : String)
    (rest : List String) (h : consumeFlag args = c :: rest)
    (hc : c ∉ commandNames) :
    mainDispatch args = .keyError c := by
  simp [mainDispatch, h, hc]

/-- Witness for C10: `pydock --local frobnicate x` crashes with a
`KeyError` on `frobnicate`. -/
theorem C10_unknown_command_keyerror_witness :
    mainDispatch ["--local", "frobnicate", "x"] = .keyError "frobnicate" :=
  C10_unknown_command_keyerror ["--local", "frobnicate", "x"] "frobnicate"
    ["x"] (by decide) (by decide)

end Pydock
